import Mathlib

/-!
Shallow embedding of the loan-entry application ("mmolddata"): the `entries`
data model, the lifecycle operations (settle, renew, revoke, create), the
report aggregation, and the JSON import validation, translated from the
TypeScript components and the SQL migrations.
-/

namespace MMold

/-- Entry status, from the `status` column
`CHECK (status IN ('active', 'settled'))`. -/
inductive Status where
  | active
  | settled
deriving DecidableEq, Repr

/-- One element of `renewal_history`, from the `Entry` interface in
`TakenEntries`. Monetary amounts (JS `number`) are modelled as `Int`. -/
structure RenewalHistoryItem where
  date : String
  amount : Int
  settled_amount : Int
  renewal_date : String
  new_amount : Int
deriving DecidableEq, Repr

/-- A row of the `entries` table, following the `Entry` interface of
`TakenEntries` (the widest client view of the row).  Optional columns are
`Option`; `renewal_history` is optional in the interface (`?`), so it is
`Option (List RenewalHistoryItem)`. -/
structure Entry where
  id : Nat
  type : String
  date : String
  customer_name : String
  customer_address : String
  customer_mobile : Option String
  items : String
  given_amount : Int
  status : Status
  settled_amount : Option Int
  settled_date : Option String
  settlement_notes : Option String
  renewal_history : Option (List RenewalHistoryItem)
  renewal_date : Option String
  renewal_amount : Option Int
deriving DecidableEq, Repr

/-- Form data `SettlementFormData` from `TakenEntries`. -/
structure SettlementFormData where
  total_amount : Int
  date : String
  notes : String
deriving DecidableEq, Repr

/-- Form data `RenewalFormData` from `TakenEntries`. -/
structure RenewalFormData where
  settlement_amount : Int
  renewal_date : String
  new_loan_amount : Int
deriving DecidableEq, Repr

/-- The field assignments of the `update` payload in `handleSettleSubmit`:
`status: 'settled'`, `settled_amount: total_amount - given_amount`,
`settled_date: date`, `settlement_notes: notes || null` (an empty string is
falsy in JS, hence becomes `null`). -/
def settlePayload (sel : Entry) (d : SettlementFormData) (e : Entry) : Entry :=
  { e with
    status := Status.settled
    settled_amount := some (d.total_amount - sel.given_amount)
    settled_date := some d.date
    settlement_notes := if d.notes = "" then none else some d.notes }

/-- A conditional `update ... .eq('id', id).eq('status', required)` against the
remote store, modelled as a list of rows: rows matching both predicates get the
payload applied, all others are untouched.  Zero matching rows is not an
error. -/
def conditionalUpdate (store : List Entry) (id : Nat) (required : Status)
    (payload : Entry → Entry) : List Entry :=
  store.map fun e => if e.id = id ∧ e.status = required then payload e else e

/-- The no-error path of `handleSettleSubmit` in `TakenEntries`: performs the
conditional update (predicate `id = sel.id ∧ status = 'active'`) on the store,
and unconditionally filters the selected entry out of the local `entries`
list (`setEntries(entries.filter(entry => entry.id !== selectedEntry.id))`).
Returns (new store, new local list). -/
def handleSettleSubmit (store : List Entry) (entries : List Entry)
    (sel : Entry) (d : SettlementFormData) : List Entry × List Entry :=
  (conditionalUpdate store sel.id Status.active (settlePayload sel d),
   entries.filter fun e => e.id ≠ sel.id)

/-- The `historyEntry` object built in `handleRenewalSubmit`. -/
def historyEntry (sel : Entry) (d : RenewalFormData) : RenewalHistoryItem :=
  { date := sel.date
    amount := sel.given_amount
    settled_amount := d.settlement_amount
    renewal_date := d.renewal_date
    new_amount := d.new_loan_amount }

/-- The field assignments of the `update` payload in `handleRenewalSubmit`:
`renewal_history: [...existingHistory, historyEntry]` where
`existingHistory = selectedEntry.renewal_history || []`, `date: renewal_date`,
`renewal_date: renewal_date`, `renewal_amount: settlement_amount`,
`given_amount: new_loan_amount`.  `status` is not in the payload. -/
def renewalPayload (sel : Entry) (d : RenewalFormData) (e : Entry) : Entry :=
  { e with
    renewal_history := some ((sel.renewal_history.getD []) ++ [historyEntry sel d])
    date := d.renewal_date
    renewal_date := some d.renewal_date
    renewal_amount := some d.settlement_amount
    given_amount := d.new_loan_amount }

/-- The no-error path of `handleRenewalSubmit`: the conditional update with
predicate `id = sel.id ∧ status = 'active'` (the local list is then refreshed
from the store by `fetchEntries`, not patched). -/
def handleRenewalSubmit (store : List Entry) (sel : Entry)
    (d : RenewalFormData) : List Entry :=
  conditionalUpdate store sel.id Status.active (renewalPayload sel d)

/-- The field assignments of the `update` payload in `handleRevoke` of
`SettledEntries`: `status: 'active'`, `settled_amount: null`,
`settled_date: null`, `settlement_notes: null`. -/
def revokePayload (e : Entry) : Entry :=
  { e with
    status := Status.active
    settled_amount := none
    settled_date := none
    settlement_notes := none }

/-- The no-error path of `handleRevoke`: the conditional update with predicate
`id = id ∧ status = 'settled'` on the store. -/
def handleRevoke (store : List Entry) (id : Nat) : List Entry :=
  conditionalUpdate store id Status.settled revokePayload

/-! ## Entry creation (`handleSubmit` of the entry form, and the SQL defaults) -/

/-- The entry form's draft state (`formData` in the entry form component). -/
structure EntryFormData where
  type : String
  date : String
  customerName : String
  customerAddress : String
  customerMobile : String
  items : String
  givenAmount : Int
deriving DecidableEq, Repr

/-- Converts `dd-MM-yyyy` to `yyyy-MM-dd`, as done inline in `handleSubmit`
(`const [day, month, year] = formData.date.split("-")`). -/
def convertToDbDate (d : String) : String :=
  match d.splitOn "-" with
  | day :: month :: year :: _ => year ++ "-" ++ month ++ "-" ++ day
  | _ => d

/-- The row produced by the `insert` in `handleSubmit` once stored: the insert
payload supplies `type`, `date` (converted), `customer_name`,
`customer_address`, `customer_mobile` (`formData.customerMobile || null`:
empty string becomes `null`), `items`, `given_amount`; every other column
takes its SQL default — `status` defaults to `'active'`
(`ADD COLUMN status text NOT NULL DEFAULT 'active'`), and
`settled_amount`, `settled_date`, `settlement_notes`, `renewal_history`,
`renewal_date`, `renewal_amount` default to NULL. -/
def insertedRow (f : EntryFormData) (id : Nat) : Entry :=
  { id := id
    type := f.type
    date := convertToDbDate f.date
    customer_name := f.customerName
    customer_address := f.customerAddress
    customer_mobile := if f.customerMobile = "" then none else some f.customerMobile
    items := f.items
    given_amount := f.givenAmount
    status := Status.active
    settled_amount := none
    settled_date := none
    settlement_notes := none
    renewal_history := none
    renewal_date := none
    renewal_amount := none }

/-- A well-formed creation draft, per the spec's creation contract
(type in the closed set, `given_amount ≥ 0`, the required text fields
non-empty). -/
def ValidDraft (f : EntryFormData) : Prop :=
  f.type ∈ ["NR", "R", "Vyapari"] ∧ 0 ≤ f.givenAmount ∧
    f.customerName ≠ "" ∧ f.customerAddress ≠ "" ∧ f.items ≠ ""

instance (f : EntryFormData) : Decidable (ValidDraft f) := by
  unfold ValidDraft; infer_instance

/-! ## Report aggregation (`calculateStats` in `Report.tsx`) -/

/-- One per-type bucket of the report statistics
(`stats.loanTypes[type]`).  All JS numbers are modelled as `Int`. -/
structure TypeStats where
  total : Int
  active : Int
  settled : Int
  invested : Int
  earned : Int
deriving DecidableEq, Repr

/-- The zero bucket installed when a type is first seen. -/
def TypeStats.init : TypeStats := ⟨0, 0, 0, 0, 0⟩

/-- Statistics record `ReportStats` from `Report.tsx`; `loanTypes` (a JS object keyed by type
string, with keys in insertion order and no duplicates) is modelled as an
association list. -/
structure ReportStats where
  totalLoans : Int
  activeLoans : Int
  settledLoans : Int
  totalInvested : Int
  totalEarned : Int
  profit : Int
  loanTypes : List (String × TypeStats)
deriving DecidableEq, Repr

/-- JS object property read `loanTypes[t]`, on the association-list model:
first (unique) matching key. -/
def lookupTS : List (String × TypeStats) → String → Option TypeStats
  | [], _ => none
  | p :: rest, t => if p.1 = t then some p.2 else lookupTS rest t

/-- Update the (unique) bucket with the given key in place; JS object keys are
unique, so only the first match is touched. -/
def updateBucket (lt : List (String × TypeStats)) (t : String)
    (f : TypeStats → TypeStats) : List (String × TypeStats) :=
  match lt with
  | [] => []
  | p :: rest => if p.1 = t then (p.1, f p.2) :: rest else p :: updateBucket rest t f

/-- Per-entry increments on a bucket, from the body of the reduce in
`calculateStats`: always `total++` and `invested += given_amount`; then for
active entries `active++`, for settled entries `settled++` and
`earned += settled_amount || 0`. -/
def bumpBucket (e : Entry) (s : TypeStats) : TypeStats :=
  match e.status with
  | Status.active =>
      { s with total := s.total + 1, invested := s.invested + e.given_amount,
               active := s.active + 1 }
  | Status.settled =>
      { s with total := s.total + 1, invested := s.invested + e.given_amount,
               settled := s.settled + 1,
               earned := s.earned + e.settled_amount.getD 0 }

/-- One iteration of the `reduce` in `calculateStats`: initialize the type's
bucket if absent, increment the overall counters and sums, and increment the
type's bucket. -/
def statsStep (acc : ReportStats) (e : Entry) : ReportStats :=
  let lt0 := if (lookupTS acc.loanTypes e.type).isSome then acc.loanTypes
             else acc.loanTypes ++ [(e.type, TypeStats.init)]
  { totalLoans := acc.totalLoans + 1
    activeLoans := acc.activeLoans + (if e.status = Status.active then 1 else 0)
    settledLoans := acc.settledLoans + (if e.status = Status.settled then 1 else 0)
    totalInvested := acc.totalInvested + e.given_amount
    totalEarned := acc.totalEarned +
      (if e.status = Status.settled then e.settled_amount.getD 0 else 0)
    profit := acc.profit
    loanTypes := updateBucket lt0 e.type (bumpBucket e) }

/-- The initial accumulator of the reduce. -/
def initialStats : ReportStats := ⟨0, 0, 0, 0, 0, 0, []⟩

/-- The bucket shown for a type in the final statistics (a type never seen
reads as the zero bucket, as `stats.loanTypes[t]` is `undefined` in JS and the
UI renders nothing for it). -/
def lookupStats (s : ReportStats) (t : String) : TypeStats :=
  (lookupTS s.loanTypes t).getD TypeStats.init

/-- The `calculateStats` function from `Report.tsx`: a single left fold over the fetched
entries, followed by `stats.profit = stats.totalEarned - stats.totalInvested`. -/
def calculateStats (data : List Entry) : ReportStats :=
  let s := data.foldl statsStep initialStats
  { s with profit := s.totalEarned - s.totalInvested }

/-! ## JSON import (`validateImportData` / `importData` in `Report.tsx`)

The import reads untyped parsed JSON (`any[]`), so the validation is modelled
over a JSON value type.  A JS property access on a missing key yields
`undefined`, modelled as `none`; an explicit JSON `null` is `some Json.null`. -/

/-- Parsed JSON values.  JS numbers are modelled as `Int` (the claims only
concern typing, not numeric values). -/
inductive Json where
  | null
  | bool (b : Bool)
  | num (n : Int)
  | str (s : String)
  | arr (elems : List Json)
  | obj (fields : List (String × Json))

/-- Property access `item.k`: defined on objects; `none` when the key is
missing (JS `undefined`). -/
def jsonGet (j : Json) (k : String) : Option Json :=
  match j with
  | Json.obj fields => fields.lookup k
  | _ => none

/-- The check `typeof item === 'object'` (true for objects, arrays and `null` in JS). -/
def typeofObject (j : Json) : Bool :=
  match j with
  | Json.obj _ => true
  | Json.arr _ => true
  | Json.null => true
  | _ => false

/-- The check `typeof item.k === 'string'` (false when `item.k` is `undefined`). -/
def fieldIsString (item : Json) (k : String) : Bool :=
  match jsonGet item k with
  | some (Json.str _) => true
  | _ => false

/-- The check `typeof item.k === 'number'`. -/
def fieldIsNumber (item : Json) (k : String) : Bool :=
  match jsonGet item k with
  | some (Json.num _) => true
  | _ => false

/-- The check `allowed.includes(item.k)` for a list of string literals: true exactly when
`item.k` is a string belonging to the list. -/
def fieldInStrings (item : Json) (k : String) (allowed : List String) : Bool :=
  match jsonGet item k with
  | some (Json.str s) => allowed.contains s
  | _ => false

/-- The check `item.k === null || typeof item.k === 'string'` — note `undefined` (a
missing key) satisfies neither disjunct. -/
def fieldIsNullOrString (item : Json) (k : String) : Bool :=
  match jsonGet item k with
  | some Json.null => true
  | some (Json.str _) => true
  | _ => false

/-- The check `item.k === undefined || typeof item.k === 'number'`. -/
def fieldIsAbsentOrNumber (item : Json) (k : String) : Bool :=
  match jsonGet item k with
  | none => true
  | some (Json.num _) => true
  | _ => false

/-- The check `item.k === undefined || typeof item.k === 'string'`. -/
def fieldIsAbsentOrString (item : Json) (k : String) : Bool :=
  match jsonGet item k with
  | none => true
  | some Json.null => false
  | some (Json.str _) => true
  | _ => false

/-- The check `item.k === undefined || item.k === null || typeof item.k === 'string'`. -/
def fieldIsAbsentNullOrString (item : Json) (k : String) : Bool :=
  match jsonGet item k with
  | none => true
  | some Json.null => true
  | some (Json.str _) => true
  | _ => false

/-- The check `item !== null`. -/
def notNull (j : Json) : Bool :=
  match j with
  | Json.null => false
  | _ => true

/-- The per-element conjunction inside `validateImportData`'s `every`,
conjunct for conjunct. -/
def validateImportItem (item : Json) : Bool :=
  typeofObject item &&
  notNull item &&
  fieldIsString item "type" &&
  fieldInStrings item "type" ["NR", "R", "Vyapari"] &&
  fieldIsString item "date" &&
  fieldIsString item "customer_name" &&
  fieldIsString item "customer_address" &&
  fieldIsNullOrString item "customer_mobile" &&
  fieldIsString item "items" &&
  fieldIsNumber item "given_amount" &&
  fieldInStrings item "status" ["active", "settled"] &&
  fieldIsAbsentOrNumber item "settled_amount" &&
  fieldIsAbsentOrString item "settled_date" &&
  fieldIsAbsentNullOrString item "settlement_notes"

/-- The function `validateImportData`: `data.every(item => ...)`. -/
def validateImportData (data : List Json) : Bool :=
  data.all validateImportItem

/-- The outcome of `importData` after a successful `JSON.parse`: a non-array
throws `'Imported data must be an array'`; a failed validation throws
`'Invalid data format: ...'` (no insert in either case); otherwise the whole
batch is bulk-inserted.  The store is modelled as the list of raw inserted
elements. -/
def importData (store : List Json) (data : Json) : List Json × Option String :=
  match data with
  | Json.arr items =>
      if validateImportData items then (store ++ items, none)
      else (store,
        some "Invalid data format: Some entries are missing required fields or have invalid values")
  | _ => (store, some "Imported data must be an array")

/-! ## Concrete sample data (used by witnesses and counterexamples) -/

/-- A concrete active loan entry. -/
def sampleActiveEntry : Entry :=
  { id := 1
    type := "NR"
    date := "2025-01-01"
    customer_name := "Ravi"
    customer_address := "Pune"
    customer_mobile := some "9999999999"
    items := "gold ring"
    given_amount := 1000
    status := Status.active
    settled_amount := none
    settled_date := none
    settlement_notes := none
    renewal_history := none
    renewal_date := none
    renewal_amount := none }

/-- A concrete settled loan entry (settled for 1200 total on a 1000 loan). -/
def sampleSettledEntry : Entry :=
  { sampleActiveEntry with
    id := 2
    status := Status.settled
    settled_amount := some 200
    settled_date := some "2025-01-10"
    settlement_notes := some "paid in cash"
    renewal_history := some [⟨"2024-12-01", 800, 900, "2025-01-01", 1000⟩]
    renewal_date := some "2025-01-01"
    renewal_amount := some 900 }

/-- A store row that a concurrent actor has already settled. -/
def staleStoreRow : Entry :=
  { sampleActiveEntry with
    id := 3
    status := Status.settled
    settled_amount := some 50
    settled_date := some "2025-01-05" }

/-- The client's stale copy of that row, still showing it as active. -/
def staleClientCopy : Entry :=
  { staleStoreRow with
    status := Status.active
    settled_amount := none
    settled_date := none }

/-- A JSON element that passes the import validation in full. -/
def sampleJsonValid : Json :=
  Json.obj
    [("type", Json.str "NR"), ("date", Json.str "2025-01-01"),
     ("customer_name", Json.str "Ravi"), ("customer_address", Json.str "Pune"),
     ("customer_mobile", Json.null), ("items", Json.str "gold ring"),
     ("given_amount", Json.num 1000), ("status", Json.str "active")]

/-- A JSON element identical to the valid one except that its `type` is
outside the closed set `{NR, R, Vyapari}`. -/
def sampleJsonBadType : Json :=
  Json.obj
    [("type", Json.str "XX"), ("date", Json.str "2025-01-01"),
     ("customer_name", Json.str "Ravi"), ("customer_address", Json.str "Pune"),
     ("customer_mobile", Json.null), ("items", Json.str "gold ring"),
     ("given_amount", Json.num 1000), ("status", Json.str "active")]

/-- A JSON element with every required field well-typed and in its closed set,
and with `customer_mobile` absent (the key is missing altogether). -/
def sampleJsonNoMobile : Json :=
  Json.obj
    [("type", Json.str "NR"), ("date", Json.str "2025-01-01"),
     ("customer_name", Json.str "Ravi"), ("customer_address", Json.str "Pune"),
     ("items", Json.str "gold ring"),
     ("given_amount", Json.num 1000), ("status", Json.str "active")]

/-! ### The spec's reading of the per-element import validation

`claimAcceptsItem` is written from the claim's words — required fields
correctly typed and in the closed sets, the optional fields
(`customer_mobile`, `settled_amount`, `settled_date`, `settlement_notes`)
each either absent or correctly typed — for comparison with the code's
`validateImportItem`. -/
def claimAcceptsItem (item : Json) : Bool :=
  typeofObject item &&
  notNull item &&
  fieldInStrings item "type" ["NR", "R", "Vyapari"] &&
  fieldIsString item "date" &&
  fieldIsString item "customer_name" &&
  fieldIsString item "customer_address" &&
  fieldIsAbsentNullOrString item "customer_mobile" &&
  fieldIsString item "items" &&
  fieldIsNumber item "given_amount" &&
  fieldInStrings item "status" ["active", "settled"] &&
  fieldIsAbsentOrNumber item "settled_amount" &&
  fieldIsAbsentOrString item "settled_date" &&
  fieldIsAbsentNullOrString item "settlement_notes"

end MMold

/-! # Theorems -/

namespace MMold

/-- C1: for every active entry and settlement inputs with
`total_amount ≥ given_amount`, settling updates the record to
`status = settled`, `settled_amount = total_amount − given_amount` (the
extra/profit amount), `settled_date = date`, `settlement_notes = notes`
(`null` when empty); and the update predicate requires `status = active` at
write time, so any row not matching `id = sel.id ∧ status = active` is left
unchanged. -/
theorem settle_updates_record (store entries : List Entry) (sel : Entry)
    (d : SettlementFormData) (i : Nat)
    (hrow : store[i]? = some sel)
    (hact : sel.status = Status.active)
    (hge : sel.given_amount ≤ d.total_amount) :
    (handleSettleSubmit store entries sel d).1[i]? =
      some { sel with
              status := Status.settled
              settled_amount := some (d.total_amount - sel.given_amount)
              settled_date := some d.date
              settlement_notes := if d.notes = "" then none else some d.notes } ∧
    ∀ (j : Nat) (e : Entry), store[j]? = some e →
      ¬(e.id = sel.id ∧ e.status = Status.active) →
      (handleSettleSubmit store entries sel d).1[j]? = some e := by
  constructor
  · simp only [handleSettleSubmit, conditionalUpdate, List.getElem?_map, hrow,
      Option.map_some]
    simp [settlePayload, hact]
  · intro j e hj hne
    simp only [handleSettleSubmit, conditionalUpdate, List.getElem?_map, hj,
      Option.map_some]
    simp [hne]

/-- Witness for `settle_updates_record` at a concrete input. -/
theorem settle_updates_record_witness :
    ([sampleActiveEntry][0]? = some sampleActiveEntry ∧
      sampleActiveEntry.status = Status.active ∧
      sampleActiveEntry.given_amount ≤ (1200 : Int)) ∧
    (handleSettleSubmit [sampleActiveEntry] [sampleActiveEntry] sampleActiveEntry
        ⟨1200, "2025-01-10", ""⟩).1[0]? =
      some { sampleActiveEntry with
              status := Status.settled
              settled_amount := some 200
              settled_date := some "2025-01-10"
              settlement_notes := none } := by
  refine ⟨⟨by decide, by decide, by decide⟩, ?_⟩
  have h := (settle_updates_record [sampleActiveEntry] [sampleActiveEntry]
    sampleActiveEntry ⟨1200, "2025-01-10", ""⟩ 0 (by decide) (by decide) (by decide)).1
  simpa [sampleActiveEntry] using h

/-- C2: renewing an active entry appends exactly one element — the pre-renewal
`{date, given_amount}` together with the transition parameters — to
`renewal_history`, leaves all previously stored history elements unchanged
(they form the prefix of the new history), and the resulting entry has
`date = renewal_date`, `given_amount = new_loan_amount`, `renewal_date` and
`renewal_amount` both present, and `status` unchanged (still active). -/
theorem renew_appends_history (store : List Entry) (sel : Entry)
    (d : RenewalFormData) (i : Nat)
    (hrow : store[i]? = some sel)
    (hact : sel.status = Status.active) :
    ∃ r : Entry, (handleRenewalSubmit store sel d)[i]? = some r ∧
      r.renewal_history = some ((sel.renewal_history.getD []) ++
        [{ date := sel.date, amount := sel.given_amount,
           settled_amount := d.settlement_amount, renewal_date := d.renewal_date,
           new_amount := d.new_loan_amount }]) ∧
      r.date = d.renewal_date ∧
      r.given_amount = d.new_loan_amount ∧
      r.renewal_date.isSome = true ∧
      r.renewal_amount.isSome = true ∧
      r.status = Status.active := by
  refine ⟨renewalPayload sel d sel, ?_, ?_, rfl, rfl, rfl, rfl, hact⟩
  · simp only [handleRenewalSubmit, conditionalUpdate, List.getElem?_map, hrow,
      Option.map_some]
    simp [hact]
  · simp [renewalPayload, historyEntry]

/-- Witness for `renew_appends_history` at a concrete input. -/
theorem renew_appends_history_witness :
    ([sampleActiveEntry][0]? = some sampleActiveEntry ∧
      sampleActiveEntry.status = Status.active) ∧
    (∃ r : Entry,
      (handleRenewalSubmit [sampleActiveEntry] sampleActiveEntry
          ⟨1100, "2025-02-01", 1500⟩)[0]? = some r ∧
      r.renewal_history = some ((sampleActiveEntry.renewal_history.getD []) ++
        [{ date := sampleActiveEntry.date, amount := sampleActiveEntry.given_amount,
           settled_amount := 1100, renewal_date := "2025-02-01",
           new_amount := 1500 }]) ∧
      r.date = "2025-02-01" ∧
      r.given_amount = 1500 ∧
      r.renewal_date.isSome = true ∧
      r.renewal_amount.isSome = true ∧
      r.status = Status.active) :=
  ⟨⟨by decide, by decide⟩,
    renew_appends_history [sampleActiveEntry] sampleActiveEntry
      ⟨1100, "2025-02-01", 1500⟩ 0 (by decide) (by decide)⟩

/-- C3: revoking a settled entry sets `status = active` and clears
`settled_amount`, `settled_date` and `settlement_notes` together (all `null`);
the write is conditioned on `status = settled` at write time, so a row not
currently settled is left unchanged. -/
theorem revoke_clears_settlement (store : List Entry) (id : Nat) (i : Nat)
    (e : Entry) (hrow : store[i]? = some e) :
    (e.id = id → e.status = Status.settled →
      (handleRevoke store id)[i]? =
        some { e with
                status := Status.active
                settled_amount := none
                settled_date := none
                settlement_notes := none }) ∧
    (e.status ≠ Status.settled → (handleRevoke store id)[i]? = some e) := by
  constructor
  · intro hid hst
    simp only [handleRevoke, conditionalUpdate, List.getElem?_map, hrow,
      Option.map_some]
    simp [revokePayload, hid, hst]
  · intro hst
    simp only [handleRevoke, conditionalUpdate, List.getElem?_map, hrow,
      Option.map_some]
    simp [hst]

/-- Witness for `revoke_clears_settlement` at a concrete input. -/
theorem revoke_clears_settlement_witness :
    ([sampleSettledEntry][0]? = some sampleSettledEntry ∧
      sampleSettledEntry.id = 2 ∧ sampleSettledEntry.status = Status.settled) ∧
    (handleRevoke [sampleSettledEntry] 2)[0]? =
      some { sampleSettledEntry with
              status := Status.active
              settled_amount := none
              settled_date := none
              settlement_notes := none } :=
  ⟨⟨by decide, by decide, by decide⟩,
    (revoke_clears_settlement [sampleSettledEntry] 2 0 sampleSettledEntry
      (by decide)).1 (by decide) (by decide)⟩

/-- C9 (frame): the revoke update writes only `status`, `settled_amount`,
`settled_date` and `settlement_notes`; every other field of the row — `id`,
`type`, `date`, `customer_name`, `customer_address`, `customer_mobile`,
`items`, `given_amount`, `renewal_history`, `renewal_date`, `renewal_amount`
— is unchanged, so renewal data survives revocation. -/
theorem revoke_frame (store : List Entry) (id : Nat) (i : Nat) (e : Entry)
    (hrow : store[i]? = some e) (hid : e.id = id)
    (hst : e.status = Status.settled) :
    ∃ r : Entry, (handleRevoke store id)[i]? = some r ∧
      r.id = e.id ∧ r.type = e.type ∧ r.date = e.date ∧
      r.customer_name = e.customer_name ∧
      r.customer_address = e.customer_address ∧
      r.customer_mobile = e.customer_mobile ∧
      r.items = e.items ∧ r.given_amount = e.given_amount ∧
      r.renewal_history = e.renewal_history ∧
      r.renewal_date = e.renewal_date ∧
      r.renewal_amount = e.renewal_amount := by
  refine ⟨revokePayload e, ?_, rfl, rfl, rfl, rfl, rfl, rfl, rfl, rfl, rfl, rfl, rfl⟩
  simp only [handleRevoke, conditionalUpdate, List.getElem?_map, hrow,
    Option.map_some]
  simp [hid, hst]

/-- Witness for `revoke_frame` at a concrete input. -/
theorem revoke_frame_witness :
    ([sampleSettledEntry][0]? = some sampleSettledEntry ∧
      sampleSettledEntry.id = 2 ∧ sampleSettledEntry.status = Status.settled) ∧
    (∃ r : Entry, (handleRevoke [sampleSettledEntry] 2)[0]? = some r ∧
      r.id = sampleSettledEntry.id ∧ r.type = sampleSettledEntry.type ∧
      r.date = sampleSettledEntry.date ∧
      r.customer_name = sampleSettledEntry.customer_name ∧
      r.customer_address = sampleSettledEntry.customer_address ∧
      r.customer_mobile = sampleSettledEntry.customer_mobile ∧
      r.items = sampleSettledEntry.items ∧
      r.given_amount = sampleSettledEntry.given_amount ∧
      r.renewal_history = sampleSettledEntry.renewal_history ∧
      r.renewal_date = sampleSettledEntry.renewal_date ∧
      r.renewal_amount = sampleSettledEntry.renewal_amount) :=
  ⟨⟨by decide, by decide, by decide⟩,
    revoke_frame [sampleSettledEntry] 2 0 sampleSettledEntry
      (by decide) (by decide) (by decide)⟩

/-- C5 counterexample: with a store row already settled by a concurrent actor,
the settle write affects zero rows (the store is unchanged and no error is
raised), but — contrary to the claim — the stale entry does NOT remain in the
local entries list: the success path filters it out unconditionally. -/
theorem settle_race_counterexample :
    (handleSettleSubmit [staleStoreRow] [staleClientCopy] staleClientCopy
        ⟨1200, "2025-01-10", ""⟩).1 = [staleStoreRow] ∧
    staleClientCopy ∉
      (handleSettleSubmit [staleStoreRow] [staleClientCopy] staleClientCopy
        ⟨1200, "2025-01-10", ""⟩).2 := by
  decide

/-- C5 as amended: when no store row matches the settle predicate
(`id = sel.id ∧ status = active`), the write silently affects zero rows — the
store is unchanged and no error is raised — and the selected entry is
nonetheless removed from the local entries list, which afterwards contains no
entry with the selected id. -/
theorem settle_race_amended (store entries : List Entry) (sel : Entry)
    (d : SettlementFormData)
    (h : ∀ e ∈ store, ¬(e.id = sel.id ∧ e.status = Status.active)) :
    (handleSettleSubmit store entries sel d).1 = store ∧
    ∀ e ∈ (handleSettleSubmit store entries sel d).2, e.id ≠ sel.id := by
  constructor
  · have hcongr : store.map
        (fun e => if e.id = sel.id ∧ e.status = Status.active
                  then settlePayload sel d e else e) = store.map id :=
      List.map_congr_left (fun e he => by simp [h e he])
    simpa [handleSettleSubmit, conditionalUpdate] using hcongr
  · intro e he
    simpa using (List.mem_filter.mp he).2

/-- Witness for `settle_race_amended` at a concrete input. -/
theorem settle_race_amended_witness :
    (∀ e ∈ [staleStoreRow], ¬(e.id = staleClientCopy.id ∧
        e.status = Status.active)) ∧
    ((handleSettleSubmit [staleStoreRow] [staleClientCopy] staleClientCopy
        ⟨1200, "2025-01-10", ""⟩).1 = [staleStoreRow] ∧
      ∀ e ∈ (handleSettleSubmit [staleStoreRow] [staleClientCopy] staleClientCopy
        ⟨1200, "2025-01-10", ""⟩).2, e.id ≠ staleClientCopy.id) :=
  ⟨by decide,
    settle_race_amended [staleStoreRow] [staleClientCopy] staleClientCopy
      ⟨1200, "2025-01-10", ""⟩ (by decide)⟩

/-- C8: for every valid creation draft, the row inserted by the entry form has
`status = active` (the SQL default) and none of the settlement or renewal
fields populated. -/
theorem create_inserts_active (f : EntryFormData) (id : Nat)
    (h : ValidDraft f) :
    (insertedRow f id).status = Status.active ∧
    (insertedRow f id).settled_amount = none ∧
    (insertedRow f id).settled_date = none ∧
    (insertedRow f id).settlement_notes = none ∧
    (insertedRow f id).renewal_history = none ∧
    (insertedRow f id).renewal_date = none ∧
    (insertedRow f id).renewal_amount = none := by
  exact ⟨rfl, rfl, rfl, rfl, rfl, rfl, rfl⟩

/-- Witness for `create_inserts_active` at a concrete valid draft. -/
theorem create_inserts_active_witness :
    ValidDraft ⟨"NR", "15-01-2025", "Ravi", "Pune", "", "gold ring", 1000⟩ ∧
    ((insertedRow ⟨"NR", "15-01-2025", "Ravi", "Pune", "", "gold ring", 1000⟩
        7).status = Status.active ∧
      (insertedRow ⟨"NR", "15-01-2025", "Ravi", "Pune", "", "gold ring", 1000⟩
        7).settled_amount = none ∧
      (insertedRow ⟨"NR", "15-01-2025", "Ravi", "Pune", "", "gold ring", 1000⟩
        7).settled_date = none ∧
      (insertedRow ⟨"NR", "15-01-2025", "Ravi", "Pune", "", "gold ring", 1000⟩
        7).settlement_notes = none ∧
      (insertedRow ⟨"NR", "15-01-2025", "Ravi", "Pune", "", "gold ring", 1000⟩
        7).renewal_history = none ∧
      (insertedRow ⟨"NR", "15-01-2025", "Ravi", "Pune", "", "gold ring", 1000⟩
        7).renewal_date = none ∧
      (insertedRow ⟨"NR", "15-01-2025", "Ravi", "Pune", "", "gold ring", 1000⟩
        7).renewal_amount = none) :=
  ⟨by decide,
    create_inserts_active ⟨"NR", "15-01-2025", "Ravi", "Pune", "", "gold ring", 1000⟩
      7 (by decide)⟩

/-- C6: import rejects the entire batch — the store is unchanged and the
validation error is raised — whenever any single element of the array has
`type` outside `{NR, R, Vyapari}` or `status` outside `{active, settled}`,
regardless of the other elements. -/
theorem import_all_or_nothing (store items : List Json) (item : Json)
    (hmem : item ∈ items)
    (hbad : fieldInStrings item "type" ["NR", "R", "Vyapari"] = false ∨
            fieldInStrings item "status" ["active", "settled"] = false) :
    (importData store (Json.arr items)).1 = store ∧
    (importData store (Json.arr items)).2 =
      some "Invalid data format: Some entries are missing required fields or have invalid values" := by
  have hitem : validateImportItem item = false := by
    unfold validateImportItem
    rcases hbad with hb | hb <;> simp [hb]
  have hval : validateImportData items = false := by
    unfold validateImportData
    rw [Bool.eq_false_iff, Ne, List.all_eq_true]
    intro hall
    have := hall item hmem
    rw [hitem] at this
    exact Bool.false_ne_true this
  simp [importData, hval]

/-- Witness for `import_all_or_nothing`: a batch of one fully valid element
and one element with `type = "XX"` is rejected whole. -/
theorem import_all_or_nothing_witness :
    (sampleJsonBadType ∈ [sampleJsonValid, sampleJsonBadType] ∧
      fieldInStrings sampleJsonBadType "type" ["NR", "R", "Vyapari"] = false) ∧
    ((importData [] (Json.arr [sampleJsonValid, sampleJsonBadType])).1 = [] ∧
      (importData [] (Json.arr [sampleJsonValid, sampleJsonBadType])).2 =
        some "Invalid data format: Some entries are missing required fields or have invalid values") :=
  ⟨⟨by simp, rfl⟩,
    import_all_or_nothing [] [sampleJsonValid, sampleJsonBadType]
      sampleJsonBadType (by simp) (Or.inl rfl)⟩

/-! Characterizations of the per-field validation checks. -/

theorem fieldIsString_eq_true (item : Json) (k : String) :
    fieldIsString item k = true ↔ ∃ s, jsonGet item k = some (Json.str s) := by
  unfold fieldIsString
  cases h : jsonGet item k with
  | none => simp
  | some v => cases v <;> simp

theorem fieldIsNumber_eq_true (item : Json) (k : String) :
    fieldIsNumber item k = true ↔ ∃ n, jsonGet item k = some (Json.num n) := by
  unfold fieldIsNumber
  cases h : jsonGet item k with
  | none => simp
  | some v => cases v <;> simp

theorem fieldInStrings_eq_true (item : Json) (k : String) (allowed : List String) :
    fieldInStrings item k allowed = true ↔
      ∃ s, jsonGet item k = some (Json.str s) ∧ s ∈ allowed := by
  unfold fieldInStrings
  cases h : jsonGet item k with
  | none => simp
  | some v => cases v <;> simp

theorem fieldIsNullOrString_eq_true (item : Json) (k : String) :
    fieldIsNullOrString item k = true ↔
      jsonGet item k = some Json.null ∨
        ∃ s, jsonGet item k = some (Json.str s) := by
  unfold fieldIsNullOrString
  cases h : jsonGet item k with
  | none => simp
  | some v => cases v <;> simp

theorem fieldIsAbsentOrNumber_eq_true (item : Json) (k : String) :
    fieldIsAbsentOrNumber item k = true ↔
      jsonGet item k = none ∨ ∃ n, jsonGet item k = some (Json.num n) := by
  unfold fieldIsAbsentOrNumber
  cases h : jsonGet item k with
  | none => simp
  | some v => cases v <;> simp

theorem fieldIsAbsentOrString_eq_true (item : Json) (k : String) :
    fieldIsAbsentOrString item k = true ↔
      jsonGet item k = none ∨ ∃ s, jsonGet item k = some (Json.str s) := by
  unfold fieldIsAbsentOrString
  cases h : jsonGet item k with
  | none => simp
  | some v => cases v <;> simp

theorem fieldIsAbsentNullOrString_eq_true (item : Json) (k : String) :
    fieldIsAbsentNullOrString item k = true ↔
      jsonGet item k = none ∨ jsonGet item k = some Json.null ∨
        ∃ s, jsonGet item k = some (Json.str s) := by
  unfold fieldIsAbsentNullOrString
  cases h : jsonGet item k with
  | none => simp
  | some v => cases v <;> simp

/-- C7 counterexample: an element with every required field correctly typed
and in its closed set, and `customer_mobile` absent, is accepted under the
claim's reading of the validation but rejected by the code, because
`customer_mobile === null || typeof customer_mobile === 'string'` is false
when the key is missing (`undefined`). -/
theorem import_validation_mobile_counterexample :
    claimAcceptsItem sampleJsonNoMobile = true ∧
    validateImportItem sampleJsonNoMobile = false := by
  constructor <;> rfl

/-- C7 as amended: per-element import validation accepts exactly those
elements that are non-null objects whose required fields are correctly typed
and in the closed sets, whose optional fields `settled_amount` and
`settled_date` are absent or correctly typed, whose `settlement_notes` is
absent, `null` or a string, and whose `customer_mobile` is PRESENT and either
`null` or a string — an otherwise-valid element with `customer_mobile` absent
fails validation. -/
theorem import_validation_characterization (item : Json) :
    validateImportItem item = true ↔
      (typeofObject item = true ∧ notNull item = true ∧
       (∃ s, jsonGet item "type" = some (Json.str s) ∧
          s ∈ (["NR", "R", "Vyapari"] : List String)) ∧
       (∃ s, jsonGet item "date" = some (Json.str s)) ∧
       (∃ s, jsonGet item "customer_name" = some (Json.str s)) ∧
       (∃ s, jsonGet item "customer_address" = some (Json.str s)) ∧
       (jsonGet item "customer_mobile" = some Json.null ∨
          ∃ s, jsonGet item "customer_mobile" = some (Json.str s)) ∧
       (∃ s, jsonGet item "items" = some (Json.str s)) ∧
       (∃ n, jsonGet item "given_amount" = some (Json.num n)) ∧
       (∃ s, jsonGet item "status" = some (Json.str s) ∧
          s ∈ (["active", "settled"] : List String)) ∧
       (jsonGet item "settled_amount" = none ∨
          ∃ n, jsonGet item "settled_amount" = some (Json.num n)) ∧
       (jsonGet item "settled_date" = none ∨
          ∃ s, jsonGet item "settled_date" = some (Json.str s)) ∧
       (jsonGet item "settlement_notes" = none ∨
          jsonGet item "settlement_notes" = some Json.null ∨
          ∃ s, jsonGet item "settlement_notes" = some (Json.str s))) := by
  unfold validateImportItem
  simp only [Bool.and_eq_true, fieldIsString_eq_true, fieldIsNumber_eq_true,
    fieldInStrings_eq_true, fieldIsNullOrString_eq_true,
    fieldIsAbsentOrNumber_eq_true, fieldIsAbsentOrString_eq_true,
    fieldIsAbsentNullOrString_eq_true, and_assoc]
  constructor
  · rintro ⟨h1, h2, -, h3, h4, h5, h6, h7, h8, h9, h10, h11, h12, h13⟩
    exact ⟨h1, h2, h3, h4, h5, h6, h7, h8, h9, h10, h11, h12, h13⟩
  · rintro ⟨h1, h2, h3, h4, h5, h6, h7, h8, h9, h10, h11, h12, h13⟩
    exact ⟨h1, h2, h3.imp fun s hs => hs.1, h3, h4, h5, h6, h7, h8, h9, h10,
      h11, h12, h13⟩

/-! ## Lemmas about the report aggregation -/

theorem lookupTS_updateBucket_self (lt : List (String × TypeStats)) (t : String)
    (f : TypeStats → TypeStats) :
    lookupTS (updateBucket lt t f) t = (lookupTS lt t).map f := by
  induction lt with
  | nil => rfl
  | cons p rest ih =>
    by_cases hp : p.1 = t
    · simp [updateBucket, lookupTS, hp]
    · simp [updateBucket, lookupTS, hp, ih]

theorem lookupTS_updateBucket_ne (lt : List (String × TypeStats))
    (t t' : String) (f : TypeStats → TypeStats) (h : t' ≠ t) :
    lookupTS (updateBucket lt t f) t' = lookupTS lt t' := by
  induction lt with
  | nil => rfl
  | cons p rest ih =>
    by_cases hp : p.1 = t
    · have hp' : p.1 ≠ t' := fun hc => h (hc ▸ hp)
      simp [updateBucket, lookupTS, hp, hp', Ne.symm h]
    · by_cases hq : p.1 = t'
      · simp [updateBucket, lookupTS, hp, hq, h]
      · simp [updateBucket, lookupTS, hp, hq, ih]

theorem lookupTS_append_self (lt : List (String × TypeStats)) (t : String)
    (v : TypeStats) :
    lookupTS (lt ++ [(t, v)]) t = some ((lookupTS lt t).getD v) := by
  induction lt with
  | nil => simp [lookupTS]
  | cons p rest ih =>
    by_cases hp : p.1 = t
    · simp [lookupTS, hp]
    · simp [lookupTS, hp, ih]

theorem lookupTS_append_ne (lt : List (String × TypeStats)) (t t' : String)
    (v : TypeStats) (h : t' ≠ t) :
    lookupTS (lt ++ [(t, v)]) t' = lookupTS lt t' := by
  induction lt with
  | nil => simp [lookupTS, Ne.symm h]
  | cons p rest ih =>
    by_cases hp : p.1 = t'
    · simp [lookupTS, hp]
    · simp [lookupTS, hp, ih]

/-- The effect of one reduce iteration on a bucket: the processed entry's type
gets its increments, every other bucket is untouched. -/
theorem lookupStats_statsStep (acc : ReportStats) (e : Entry) (t : String) :
    lookupStats (statsStep acc e) t =
      if t = e.type then bumpBucket e (lookupStats acc t)
      else lookupStats acc t := by
  by_cases ht : t = e.type
  · subst ht
    by_cases hp : (lookupTS acc.loanTypes e.type).isSome
    · obtain ⟨w, hw⟩ := Option.isSome_iff_exists.mp hp
      simp [lookupStats, statsStep, hp, lookupTS_updateBucket_self, hw]
    · have hw : lookupTS acc.loanTypes e.type = none :=
        Option.not_isSome_iff_eq_none.mp hp
      simp [lookupStats, statsStep, hp, lookupTS_updateBucket_self,
        lookupTS_append_self, hw]
  · by_cases hp : (lookupTS acc.loanTypes e.type).isSome
    · simp [lookupStats, statsStep, hp, ht,
        lookupTS_updateBucket_ne _ _ _ _ ht]
    · simp [lookupStats, statsStep, hp, ht,
        lookupTS_updateBucket_ne _ _ _ _ ht, lookupTS_append_ne _ _ _ _ ht]

/-- The reduce restricted to one bucket is the bump-fold over the entries of
that type. -/
theorem lookupStats_foldl (data : List Entry) :
    ∀ (acc : ReportStats) (t : String),
    lookupStats (data.foldl statsStep acc) t =
      (data.filter (fun e => e.type = t)).foldl (fun s e => bumpBucket e s)
        (lookupStats acc t) := by
  induction data with
  | nil => intro acc t; rfl
  | cons e rest ih =>
    intro acc t
    by_cases h : e.type = t
    · simp only [List.foldl_cons, List.filter_cons, decide_eq_true h,
        if_pos rfl]
      rw [ih, lookupStats_statsStep, if_pos h.symm]
      rfl
    · simp only [List.foldl_cons, List.filter_cons, decide_eq_false h,
        Bool.false_eq_true, if_neg (fun hc : False => hc.elim)]
      rw [ih, lookupStats_statsStep, if_neg (fun hc => h hc.symm)]

/-- Closed form of the bump-fold: starting bucket plus the counted and summed
contributions of the list. -/
theorem foldl_bumpBucket (l : List Entry) :
    ∀ s : TypeStats,
    l.foldl (fun s e => bumpBucket e s) s =
      { total := s.total + (l.length : Int)
        active := s.active +
          ((l.filter (fun e => e.status = Status.active)).length : Int)
        settled := s.settled +
          ((l.filter (fun e => e.status = Status.settled)).length : Int)
        invested := s.invested + (l.map (fun e => e.given_amount)).sum
        earned := s.earned + ((l.filter (fun e => e.status = Status.settled)).map
          (fun e => e.settled_amount.getD 0)).sum } := by
  induction l with
  | nil => intro s; simp
  | cons e rest ih =>
    intro s
    rw [List.foldl_cons, ih]
    rcases hst : e.status with _ | _ <;>
      · simp only [bumpBucket, hst, List.filter_cons, List.map_cons,
          List.sum_cons, List.length_cons, decide_eq_true, decide_eq_false,
          TypeStats.mk.injEq]
        norm_num [hst]
        push_cast
        and_intros <;> ring

/-- A projection of the accumulator that each reduce step increments by a
per-entry amount accumulates the sum of those amounts over the fold. -/
theorem foldl_statsStep_proj (π : ReportStats → Int) (dOf : Entry → Int)
    (hstep : ∀ acc e, π (statsStep acc e) = π acc + dOf e) (data : List Entry) :
    ∀ acc : ReportStats,
      π (data.foldl statsStep acc) = π acc + (data.map dOf).sum := by
  induction data with
  | nil => intro acc; simp
  | cons e rest ih =>
    intro acc
    rw [List.foldl_cons, ih, hstep]
    simp [add_assoc]

theorem sum_updateBucket (g : TypeStats → Int) (f : TypeStats → TypeStats)
    (δ : Int) (hf : ∀ s, g (f s) = g s + δ) (lt : List (String × TypeStats))
    (t : String) (hp : (lookupTS lt t).isSome) :
    ((updateBucket lt t f).map (fun p => g p.2)).sum =
      (lt.map (fun p => g p.2)).sum + δ := by
  induction lt with
  | nil => simp [lookupTS] at hp
  | cons p rest ih =>
    by_cases hq : p.1 = t
    · simp only [updateBucket, if_pos hq, List.map_cons, List.sum_cons, hf]
      ring
    · have hp' : (lookupTS rest t).isSome := by
        simpa [lookupTS, hq] using hp
      simp only [updateBucket, if_neg hq, List.map_cons, List.sum_cons,
        ih hp']
      ring

/-- One reduce step changes the over-buckets sum of a projection by exactly
the per-entry bump amount (the freshly installed zero bucket contributes
nothing). -/
theorem statsStep_bucketSum (g : TypeStats → Int) (e : Entry) (δ : Int)
    (hbump : ∀ s, g (bumpBucket e s) = g s + δ) (hinit : g TypeStats.init = 0)
    (acc : ReportStats) :
    ((statsStep acc e).loanTypes.map (fun p => g p.2)).sum =
      (acc.loanTypes.map (fun p => g p.2)).sum + δ := by
  by_cases hp : (lookupTS acc.loanTypes e.type).isSome
  · simp only [statsStep, if_pos hp]
    exact sum_updateBucket g _ δ hbump _ _ hp
  · have hp2 : (lookupTS (acc.loanTypes ++ [(e.type, TypeStats.init)])
        e.type).isSome := by
      rw [lookupTS_append_self]; rfl
    simp only [statsStep, if_neg hp]
    rw [sum_updateBucket g _ δ hbump _ _ hp2]
    simp [hinit]

theorem calculateStats_totalLoans (data : List Entry) :
    (calculateStats data).totalLoans =
      (data.foldl statsStep initialStats).totalLoans := rfl

theorem calculateStats_activeLoans (data : List Entry) :
    (calculateStats data).activeLoans =
      (data.foldl statsStep initialStats).activeLoans := rfl

theorem calculateStats_settledLoans (data : List Entry) :
    (calculateStats data).settledLoans =
      (data.foldl statsStep initialStats).settledLoans := rfl

theorem calculateStats_totalInvested (data : List Entry) :
    (calculateStats data).totalInvested =
      (data.foldl statsStep initialStats).totalInvested := rfl

theorem calculateStats_totalEarned (data : List Entry) :
    (calculateStats data).totalEarned =
      (data.foldl statsStep initialStats).totalEarned := rfl

theorem calculateStats_loanTypes (data : List Entry) :
    (calculateStats data).loanTypes =
      (data.foldl statsStep initialStats).loanTypes := rfl

/-- Summing `settled_amount || 0` over the settled entries only equals summing
the per-entry guarded contribution over all entries. -/
theorem sum_earned_filter (l : List Entry) :
    (l.map (fun e => if e.status = Status.settled
        then e.settled_amount.getD 0 else 0)).sum =
      ((l.filter (fun e => e.status = Status.settled)).map
        (fun e => e.settled_amount.getD 0)).sum := by
  induction l with
  | nil => rfl
  | cons e rest ih =>
    cases he : e.status <;> simp [List.filter_cons, he, ih]

/-- C4: the report aggregation computes, in one pass, `totalInvested` as the
sum of `given_amount` over all entries, `totalEarned` as the sum of
`settled_amount` (0 when absent) over the settled entries only,
`profit = totalEarned − totalInvested`, and for every type `t` a bucket
`{total, active, settled, invested, earned}` that is exactly the same
aggregation restricted to the entries of type `t`. -/
theorem report_aggregation_correct (data : List Entry) :
    (calculateStats data).totalInvested =
      (data.map (fun e => e.given_amount)).sum ∧
    (calculateStats data).totalEarned =
      ((data.filter (fun e => e.status = Status.settled)).map
        (fun e => e.settled_amount.getD 0)).sum ∧
    (calculateStats data).profit =
      (calculateStats data).totalEarned - (calculateStats data).totalInvested ∧
    ∀ t : String, lookupStats (calculateStats data) t =
      { total := ((data.filter (fun e => e.type = t)).length : Int)
        active := (((data.filter (fun e => e.type = t)).filter
          (fun e => e.status = Status.active)).length : Int)
        settled := (((data.filter (fun e => e.type = t)).filter
          (fun e => e.status = Status.settled)).length : Int)
        invested := ((data.filter (fun e => e.type = t)).map
          (fun e => e.given_amount)).sum
        earned := (((data.filter (fun e => e.type = t)).filter
          (fun e => e.status = Status.settled)).map
          (fun e => e.settled_amount.getD 0)).sum } := by
  refine ⟨?_, ?_, rfl, ?_⟩
  · rw [calculateStats_totalInvested,
      foldl_statsStep_proj (fun s => s.totalInvested)
        (fun e => e.given_amount) (fun acc e => rfl) data initialStats]
    simp [initialStats]
  · rw [calculateStats_totalEarned,
      foldl_statsStep_proj (fun s => s.totalEarned)
        (fun e => if e.status = Status.settled
          then e.settled_amount.getD 0 else 0) (fun acc e => rfl)
        data initialStats, sum_earned_filter]
    simp [initialStats]
  · intro t
    have h1 : lookupStats (calculateStats data) t =
        lookupStats (data.foldl statsStep initialStats) t := rfl
    have h2 : lookupStats initialStats t = TypeStats.init := rfl
    rw [h1, lookupStats_foldl, h2, foldl_bumpBucket]
    simp [TypeStats.init]

/-- C10: the aggregation's overall counters are consistent: the total loan
count splits into active plus settled, and the total count, total invested and
total earned each equal the sum of the corresponding field over all per-type
buckets. -/
theorem report_totals_consistent (data : List Entry) :
    (calculateStats data).totalLoans =
      (calculateStats data).activeLoans + (calculateStats data).settledLoans ∧
    (calculateStats data).totalLoans =
      ((calculateStats data).loanTypes.map (fun p => p.2.total)).sum ∧
    (calculateStats data).totalInvested =
      ((calculateStats data).loanTypes.map (fun p => p.2.invested)).sum ∧
    (calculateStats data).totalEarned =
      ((calculateStats data).loanTypes.map (fun p => p.2.earned)).sum := by
  have hTL := foldl_statsStep_proj (fun s => s.totalLoans) (fun _ => 1)
    (fun acc e => rfl) data initialStats
  have hAL := foldl_statsStep_proj (fun s => s.activeLoans)
    (fun e => if e.status = Status.active then 1 else 0) (fun acc e => rfl)
    data initialStats
  have hSL := foldl_statsStep_proj (fun s => s.settledLoans)
    (fun e => if e.status = Status.settled then 1 else 0) (fun acc e => rfl)
    data initialStats
  have hTI := foldl_statsStep_proj (fun s => s.totalInvested)
    (fun e => e.given_amount) (fun acc e => rfl) data initialStats
  have hTE := foldl_statsStep_proj (fun s => s.totalEarned)
    (fun e => if e.status = Status.settled then e.settled_amount.getD 0 else 0)
    (fun acc e => rfl) data initialStats
  have hBT := foldl_statsStep_proj
    (fun s => (s.loanTypes.map (fun p => p.2.total)).sum) (fun _ => 1)
    (fun acc e => statsStep_bucketSum (fun b => b.total) e 1
      (fun s => by cases he : e.status <;> simp [bumpBucket, he]) rfl acc)
    data initialStats
  have hBI := foldl_statsStep_proj
    (fun s => (s.loanTypes.map (fun p => p.2.invested)).sum)
    (fun e => e.given_amount)
    (fun acc e => statsStep_bucketSum (fun b => b.invested) e e.given_amount
      (fun s => by cases he : e.status <;> simp [bumpBucket, he]) rfl acc)
    data initialStats
  have hBE := foldl_statsStep_proj
    (fun s => (s.loanTypes.map (fun p => p.2.earned)).sum)
    (fun e => if e.status = Status.settled then e.settled_amount.getD 0 else 0)
    (fun acc e => statsStep_bucketSum (fun b => b.earned) e
      (if e.status = Status.settled then e.settled_amount.getD 0 else 0)
      (fun s => by cases he : e.status <;> simp [bumpBucket, he]) rfl acc)
    data initialStats
  have hone : ∀ l : List Entry, (l.map (fun _ => (1 : Int))).sum =
      (l.map (fun e => if e.status = Status.active then 1 else 0)).sum +
      (l.map (fun e => if e.status = Status.settled then 1 else 0)).sum := by
    intro l
    induction l with
    | nil => simp
    | cons e rest ih =>
      simp only [List.map_cons, List.sum_cons, ih]
      cases he : e.status <;> simp [he] <;> ring
  refine ⟨?_, ?_, ?_, ?_⟩
  · rw [calculateStats_totalLoans, calculateStats_activeLoans,
      calculateStats_settledLoans, hTL, hAL, hSL]
    simpa [initialStats] using hone data
  · rw [calculateStats_totalLoans, calculateStats_loanTypes, hTL, hBT]
    simp [initialStats]
  · rw [calculateStats_totalInvested, calculateStats_loanTypes, hTI, hBI]
    simp [initialStats]
  · rw [calculateStats_totalEarned, calculateStats_loanTypes, hTE, hBE]
    simp [initialStats]

end MMold
